import Mathlib

/-!
Verification of the `cors-server.py` CORS proxy server: a shallow embedding
of the request handler `CORSProxyHandler` and proofs about its dispatch,
proxying, dashboard serving and CORS-header behaviour.

Modelling conventions:
* HTTP bodies and upstream payloads are modelled as `String`s of decoded
  characters; UTF-8 encoding is injective, so byte-for-byte equality of
  bodies corresponds to equality of these strings.
* Header emission is modelled as an accumulating list: `send_header` conses
  onto the list of already-sent headers, and the overridden `end_headers`
  appends the three CORS headers at the end (lines 19-23 of the source).
* The outcome of `urllib.request.urlopen` is modelled by `UpstreamOutcome`:
  a fully-read success (which carries the upstream status, ignored by the
  code), an `HTTPError` (upstream reachable, non-2xx status), a `URLError`
  (connection refused, DNS failure, timeout of the 10-second limit), or any
  other exception.
* The inherited `SimpleHTTPRequestHandler` behaviour (generic static-file
  serving for unmatched GET paths, and the base-class handling of other
  methods) is an abstract function in the environment; its header output is
  still finalised through the overridden `end_headers`, as in the source,
  because every base-class response path calls `end_headers`.
-/

namespace CorsServer

/-- Listening port, line 15 of the source. -/
def PORT : Nat := 8080

/-- Fixed backend base URL, line 16 of the source. -/
def LOCALSTACK_URL : String := "http://localhost:4566"

/-- An incoming HTTP request: method and path (the path includes any query
string, as in `BaseHTTPRequestHandler.path`). -/
structure Request where
  method : String
  path : String
deriving Repr, DecidableEq

/-- An outgoing HTTP response: status code, headers in emission order, body. -/
structure Response where
  status : Nat
  headers : List (String × String)
  body : String
deriving Repr, DecidableEq

/-- The three fixed CORS headers, lines 20-22 of the source. -/
def corsHeaders : List (String × String) :=
  [("Access-Control-Allow-Origin", "*"),
   ("Access-Control-Allow-Methods", "GET, POST, PUT, DELETE, OPTIONS"),
   ("Access-Control-Allow-Headers", "Content-Type, Authorization")]

/-- Model of `CORSProxyHandler.end_headers` (lines 19-23): appends the three CORS
headers after whatever headers were already sent, then terminates the header
block. -/
def end_headers (sent : List (String × String)) : List (String × String) :=
  sent ++ corsHeaders

/-- Outcome of `urllib.request.urlopen(req, timeout=10)` followed by
`response.read()` (lines 55-56). `success` carries the upstream status
(ignored by the code) and the fully-read raw body. `httpError` is
`urllib.error.HTTPError` (upstream reachable, error status). `urlError` is
`urllib.error.URLError` (connection refused, DNS failure, timeout: `urlopen`
wraps these `OSError`s in `URLError`). `otherError` is any other
exception. -/
inductive UpstreamOutcome where
  | success (status : Nat) (body : String)
  | httpError (code : Nat) (reason : String)
  | urlError (reason : String)
  | otherError (msg : String)
deriving Repr, DecidableEq

/-- The environment a request is handled in: the upstream service (keyed by
full target URL), the optional contents of `dashboard.html` in the working
directory, and the inherited `SimpleHTTPRequestHandler` behaviour for
unmatched requests, given as (status, headers-sent-before-finalisation,
body). -/
structure Env where
  upstream : String → UpstreamOutcome
  dashboardFile : Option String
  base : Request → Nat × List (String × String) × String

/-- Python `s.startswith(p)`: `p` is a prefix of `s` (on code points). -/
def startswith (s p : String) : Bool :=
  p.data.isPrefixOf s.data

/-- Python slicing `s[n:]`: drop the first `n` code points of `s`. -/
def pySliceFrom (s : String) (n : Nat) : String :=
  String.mk (s.data.drop n)

/-- Escaping applied by `json.dumps` to a string value: backslash and double
quote are escaped (the escapes relevant to the bodies this server builds;
`json.dumps` additionally escapes control characters, which we also model
for newline, carriage return and tab). -/
def jsonEscapeChar (c : Char) : List Char :=
  if c = '\\' then ['\\', '\\']
  else if c = '"' then ['\\', '"']
  else if c = '\n' then ['\\', 'n']
  else if c = '\r' then ['\\', 'r']
  else if c = '\t' then ['\\', 't']
  else [c]

/-- The `json.dumps` escaping lifted to strings. -/
def jsonEscape (s : String) : String :=
  String.mk (s.data.foldr (fun c acc => jsonEscapeChar c ++ acc) [])

/-- Model of the Python expression building the error body, a call of
json.dumps on a dict with one key named error: a one-key JSON object with
the default separator (colon followed by a space). -/
def json_dumps_error (s : String) : String :=
  "\x7b\"error\": \"" ++ jsonEscape s ++ "\"\x7d"

/-- Python universal-newline translation performed by reading a file in text
mode (the open call with mode r on dashboard.html, line 91): each CRLF pair and each lone
CR in the file becomes a single LF in the string returned by `f.read()`. -/
def translateNewlines : List Char → List Char
  | [] => []
  | [c] => if c = '\r' then ['\n'] else [c]
  | c :: d :: rest =>
    if c = '\r' then
      if d = '\n' then '\n' :: translateNewlines rest
      else '\n' :: translateNewlines (d :: rest)
    else
      c :: translateNewlines (d :: rest)

/-- Text-mode file read: universal-newline translation on the decoded
contents of the file. -/
def pythonTextRead (contents : String) : String :=
  String.mk (translateNewlines contents.data)

/-- Model of `CORSProxyHandler.do_OPTIONS` (lines 25-31): status 200, the three CORS
headers sent explicitly, then `end_headers` (which appends them again),
empty body. -/
def do_OPTIONS : Response :=
  { status := 200, headers := end_headers corsHeaders, body := "" }

/-- Derivation of the upstream target URL, lines 48-49 of the source:
the slice removing the first 4 characters of the path, concatenated onto
the fixed backend base URL by string formatting. -/
def target_url (path : String) : String :=
  let localstack_path := pySliceFrom path 4
  LOCALSTACK_URL ++ localstack_path

/-- Model of `CORSProxyHandler.proxy_to_localstack` (lines 44-86): strip the first 4
characters of the path, forward to the backend, translate the outcome. -/
def proxy_to_localstack (upstream : String → UpstreamOutcome) (path : String) :
    Response :=
  let url := target_url path
  match upstream url with
  | .success _ data =>
      { status := 200,
        headers := end_headers [("Content-Type", "application/json")],
        body := data }
  | .httpError code reason =>
      { status := code,
        headers := end_headers [("Content-Type", "application/json")],
        body := json_dumps_error ("HTTP " ++ toString code ++ ": " ++ reason) }
  | .urlError reason =>
      { status := 503,
        headers := end_headers [("Content-Type", "application/json")],
        body := json_dumps_error ("LocalStack connection failed: " ++ reason) }
  | .otherError msg =>
      { status := 500,
        headers := end_headers [("Content-Type", "application/json")],
        body := json_dumps_error ("Proxy error: " ++ msg) }

/-- Model of `CORSProxyHandler.serve_dashboard` (lines 88-101): read `dashboard.html`
in text mode and serve it as `text/html`, or 404 with a fixed fragment when
the file is absent. -/
def serve_dashboard (file : Option String) : Response :=
  match file with
  | some contents =>
      { status := 200,
        headers := end_headers [("Content-Type", "text/html")],
        body := pythonTextRead contents }
  | none =>
      { status := 404,
        headers := end_headers [("Content-Type", "text/html")],
        body := "<h1>Dashboard not found</h1>" }

/-- The inherited `SimpleHTTPRequestHandler` fallback: its response is
finalised through the overridden `end_headers`, so the CORS headers are
appended to whatever headers the base class sent. -/
def baseResponse (env : Env) (req : Request) : Response :=
  { status := (env.base req).1,
    headers := end_headers (env.base req).2.1,
    body := (env.base req).2.2 }

/-- Model of `CORSProxyHandler.do_GET` (lines 33-42): dispatch on the path. -/
def do_GET (env : Env) (path : String) : Response :=
  if startswith path "/api/" then
    proxy_to_localstack env.upstream path
  else if path = "/" ∨ path = "/dashboard" then
    serve_dashboard env.dashboardFile
  else
    baseResponse env { method := "GET", path := path }

/-- Top-level dispatch of one request: `do_OPTIONS` for OPTIONS, `do_GET`
for GET, and the base-class handling for any other method (which also
finalises through the overridden `end_headers`). -/
def handle (env : Env) (req : Request) : Response :=
  if req.method = "OPTIONS" then
    do_OPTIONS
  else if req.method = "GET" then
    do_GET env req.path
  else
    baseResponse env req

/-- A concrete environment used to instantiate the theorems on closed
inputs: the upstream answers a few fixed URLs with one outcome of each
kind, the dashboard file is absent, and the inherited fallback serves a
plain 404 with no headers of its own. -/
def sampleEnv : Env :=
  { upstream := fun url =>
      if url = "http://localhost:4566/health" then .success 201 "OKBODY"
      else if url = "http://localhost:4566/missing" then .httpError 404 "Not Found"
      else if url = "http://localhost:4566/down" then .urlError "connection refused"
      else .otherError "boom",
    dashboardFile := none,
    base := fun _ => (404, [], "") }

/-- Like `sampleEnv` but with a dashboard file whose raw contents end in a
CRLF pair. -/
def crlfEnv : Env :=
  { sampleEnv with dashboardFile := some "a\r\n" }

/-- Reduction of `translateNewlines` at a head character that is not CR. -/
lemma translateNewlines_cons_ne (c : Char) (rest : List Char) (hc : c ≠ '\r') :
    translateNewlines (c :: rest) = c :: translateNewlines rest := by
  cases rest with
  | nil => simp [translateNewlines, hc]
  | cons d rest2 => simp [translateNewlines, hc]

/-- A character list containing no CR is unchanged by universal-newline
translation. -/
lemma translateNewlines_of_no_cr (l : List Char) (h : '\r' ∉ l) :
    translateNewlines l = l := by
  induction l with
  | nil => rfl
  | cons c rest ih =>
    have hc : c ≠ '\r' := by
      intro e
      exact h (by simp [e])
    have hr : '\r' ∉ rest := fun m => h (List.mem_cons_of_mem _ m)
    rw [translateNewlines_cons_ne c rest hc, ih hr]

/-- Every branch of the proxy finalises its headers through `end_headers`,
so the header list always ends with the CORS triple. -/
lemma proxy_headers_eq_append (u : String → UpstreamOutcome) (p : String) :
    ∃ sent, (proxy_to_localstack u p).headers = sent ++ corsHeaders := by
  rcases hu : u (target_url p) with ⟨st, b⟩ | ⟨c, r⟩ | r | m <;>
    simp [proxy_to_localstack, hu, end_headers] <;>
    exact ⟨[("Content-Type", "application/json")], rfl⟩

/-- Every branch of the handler finalises its headers through
`end_headers`, so the header list always ends with the CORS triple. -/
lemma headers_eq_append (env : Env) (req : Request) :
    ∃ sent, (handle env req).headers = sent ++ corsHeaders := by
  unfold handle do_GET serve_dashboard baseResponse do_OPTIONS end_headers
  repeat' split
  all_goals first
    | exact ⟨_, rfl⟩
    | exact proxy_headers_eq_append env.upstream req.path

/-- C1: for every request handled by the server — any method, any path,
whether the outcome is a success, a client error, a server error, or the
static-file fallback — the outgoing response carries the three fixed CORS
headers. -/
theorem every_response_carries_cors_headers (env : Env) (req : Request) :
    ("Access-Control-Allow-Origin", "*") ∈ (handle env req).headers ∧
    ("Access-Control-Allow-Methods", "GET, POST, PUT, DELETE, OPTIONS") ∈
      (handle env req).headers ∧
    ("Access-Control-Allow-Headers", "Content-Type, Authorization") ∈
      (handle env req).headers := by
  obtain ⟨sent, hs⟩ := headers_eq_append env req
  rw [hs]
  refine ⟨?_, ?_, ?_⟩ <;> exact List.mem_append_right _ (by simp [corsHeaders])

/-- C2: for every GET request whose path starts with `/api/` whose upstream
GET succeeds (with any upstream status, e.g. 201), the client receives
status exactly 200, content-type application/json, and a body identical to
the raw upstream bytes. -/
theorem api_success_hard_fixed_200 (env : Env) (path : String)
    (upstreamStatus : Nat) (data : String)
    (hpath : startswith path "/api/" = true)
    (hup : env.upstream (target_url path) = .success upstreamStatus data) :
    handle env { method := "GET", path := path } =
      { status := 200,
        headers := end_headers [("Content-Type", "application/json")],
        body := data } := by
  simp [handle, do_GET, hpath, proxy_to_localstack, hup]

/-- Witness for C2: with the sample upstream returning status 201 and body
"OKBODY" at /health, a GET to /api/health yields exactly status 200 with
the upstream body. -/
theorem api_success_hard_fixed_200_instance :
    handle sampleEnv { method := "GET", path := "/api/health" } =
      { status := 200,
        headers := end_headers [("Content-Type", "application/json")],
        body := "OKBODY" } :=
  api_success_hard_fixed_200 sampleEnv "/api/health" 201 "OKBODY"
    (by decide) (by decide)

/-- C3: the upstream target URL is derived by removing exactly the first 4
characters of the request path (the literal /api), preserving any query
string, and concatenating the result onto the fixed backend base URL, with
no normalisation, no double-slash handling and no traversal
sanitisation. -/
theorem target_url_strips_exact_api_prefix :
    (∀ rest : String, target_url ("/api" ++ rest) = "http://localhost:4566" ++ rest) ∧
    target_url "/api/health" = "http://localhost:4566/health" ∧
    target_url "/api/health?region=us-east-1&q=2" =
      "http://localhost:4566/health?region=us-east-1&q=2" ∧
    target_url "/api//svc/../../etc/passwd" =
      "http://localhost:4566//svc/../../etc/passwd" := by
  refine ⟨?_, by decide, by decide, by decide⟩
  intro rest
  cases rest with
  | mk data => rfl

/-- C4: for every GET request whose path starts with `/api/` where the
upstream returns an HTTP error status, the client receives exactly that
status, content-type application/json, and the body produced by json.dumps
of a one-key object mapping error to "HTTP code: reason". -/
theorem api_http_error_propagates_status (env : Env) (path : String)
    (code : Nat) (reason : String)
    (hpath : startswith path "/api/" = true)
    (hup : env.upstream (target_url path) = .httpError code reason) :
    handle env { method := "GET", path := path } =
      { status := code,
        headers := end_headers [("Content-Type", "application/json")],
        body := json_dumps_error ("HTTP " ++ toString code ++ ": " ++ reason) } := by
  simp [handle, do_GET, hpath, proxy_to_localstack, hup]

/-- Witness for C4: with the sample upstream answering /missing with a 404
Not Found error, a GET to /api/missing yields status 404 and the literal
JSON error body. -/
theorem api_http_error_propagates_status_instance :
    handle sampleEnv { method := "GET", path := "/api/missing" } =
      { status := 404,
        headers := end_headers [("Content-Type", "application/json")],
        body := "\x7b\"error\": \"HTTP 404: Not Found\"\x7d" } :=
  (api_http_error_propagates_status sampleEnv "/api/missing" 404 "Not Found"
    (by decide) (by decide)).trans (by decide)

/-- C5: for every GET request whose path starts with `/api/` where the
upstream call fails with a connection-level error (connection refused, DNS
failure, timeout — all surfaced as URLError), the client receives status
503 with the "LocalStack connection failed" JSON body, regardless of the
underlying cause; any other kind of failure instead yields status 500 with
the "Proxy error" JSON body. -/
theorem api_unreachable_503_other_failure_500 (env : Env)
    (p1 p2 : String) (reason msg : String)
    (h1 : startswith p1 "/api/" = true)
    (h2 : startswith p2 "/api/" = true)
    (hu1 : env.upstream (target_url p1) = .urlError reason)
    (hu2 : env.upstream (target_url p2) = .otherError msg) :
    handle env { method := "GET", path := p1 } =
      { status := 503,
        headers := end_headers [("Content-Type", "application/json")],
        body := json_dumps_error ("LocalStack connection failed: " ++ reason) } ∧
    handle env { method := "GET", path := p2 } =
      { status := 500,
        headers := end_headers [("Content-Type", "application/json")],
        body := json_dumps_error ("Proxy error: " ++ msg) } := by
  constructor <;> simp [handle, do_GET, h1, h2, proxy_to_localstack, hu1, hu2]

/-- Witness for C5: with the sample upstream refusing connections at /down
and failing in an unforeseen way elsewhere, a GET to /api/down yields 503
with the connection-failure body and a GET to /api/other yields 500 with
the proxy-error body. -/
theorem api_unreachable_503_other_failure_500_instance :
    handle sampleEnv { method := "GET", path := "/api/down" } =
      { status := 503,
        headers := end_headers [("Content-Type", "application/json")],
        body := "\x7b\"error\": \"LocalStack connection failed: connection refused\"\x7d" } ∧
    handle sampleEnv { method := "GET", path := "/api/other" } =
      { status := 500,
        headers := end_headers [("Content-Type", "application/json")],
        body := "\x7b\"error\": \"Proxy error: boom\"\x7d" } := by
  have h := api_unreachable_503_other_failure_500 sampleEnv "/api/down" "/api/other"
    "connection refused" "boom" (by decide) (by decide) (by decide) (by decide)
  exact ⟨h.1.trans (by decide), h.2.trans (by decide)⟩

/-- C6: for every OPTIONS request, on any path whatsoever and independent
of whether the path matches any other route, the server responds with
status 200, an empty body, and the CORS headers. -/
theorem options_any_path_200_empty_with_cors (env : Env) (path : String) :
    handle env { method := "OPTIONS", path := path } =
      { status := 200, headers := end_headers corsHeaders, body := "" } ∧
    ("Access-Control-Allow-Origin", "*") ∈
      (handle env { method := "OPTIONS", path := path }).headers ∧
    ("Access-Control-Allow-Methods", "GET, POST, PUT, DELETE, OPTIONS") ∈
      (handle env { method := "OPTIONS", path := path }).headers ∧
    ("Access-Control-Allow-Headers", "Content-Type, Authorization") ∈
      (handle env { method := "OPTIONS", path := path }).headers := by
  have hh : handle env { method := "OPTIONS", path := path } = do_OPTIONS := by
    simp [handle]
  rw [hh]
  refine ⟨rfl, ?_, ?_, ?_⟩ <;> decide

/-- Counterexample to C7: a preflight OPTIONS response does not carry the
three CORS headers free of duplicates — `do_OPTIONS` sends the triple
explicitly and `end_headers` appends it again, so each of the three
appears exactly twice in the finished response. -/
theorem options_response_duplicates_cors_headers :
    (handle sampleEnv { method := "OPTIONS", path := "/" }).headers.count
        ("Access-Control-Allow-Origin", "*") = 2 ∧
    (handle sampleEnv { method := "OPTIONS", path := "/" }).headers.count
        ("Access-Control-Allow-Methods", "GET, POST, PUT, DELETE, OPTIONS") = 2 ∧
    (handle sampleEnv { method := "OPTIONS", path := "/" }).headers.count
        ("Access-Control-Allow-Headers", "Content-Type, Authorization") = 2 ∧
    (2 : Nat) ≠ 1 := by decide

/-- C7 as amended: every response-finalisation step (`end_headers`) injects
exactly the three CORS headers, and every finished response — success,
error, dashboard, or static-file fallback — carries each of the three
exactly once, except preflight OPTIONS responses, which carry each exactly
twice because `do_OPTIONS` also sends the triple explicitly before
finalisation. The hypothesis states that the inherited static-file
machinery emits no CORS header of its own, as in
`SimpleHTTPRequestHandler`. -/
theorem cors_injection_counts (env : Env) (req : Request)
    (hbase : ∀ r, ∀ h ∈ corsHeaders, ((env.base r).2.1).count h = 0) :
    (∀ sent, end_headers sent = sent ++ corsHeaders) ∧
    (∀ h ∈ corsHeaders,
        (handle env req).headers.count h =
          if req.method = "OPTIONS" then 2 else 1) := by
  refine ⟨fun _ => rfl, ?_⟩
  intro h hm
  have hcors : corsHeaders.count h = 1 := by fin_cases hm <;> decide
  have hne_json : h ≠ ("Content-Type", "application/json") := by
    fin_cases hm <;> decide
  have hne_html : h ≠ ("Content-Type", "text/html") := by
    fin_cases hm <;> decide
  have hsw1 : startswith "/" "/api/" = false := by decide
  have hsw2 : startswith "/dashboard" "/api/" = false := by decide
  by_cases hopt : req.method = "OPTIONS"
  · simp [handle, hopt, do_OPTIONS, end_headers, List.count_append, hcors]
  · by_cases hget : req.method = "GET"
    · by_cases hapi : startswith req.path "/api/" = true
      · rcases hu : env.upstream (target_url req.path) with ⟨st, b⟩ | ⟨c, r⟩ | r | m <;>
          simp [handle, hopt, hget, do_GET, hapi, proxy_to_localstack, hu,
                end_headers, List.count_append, List.count_cons, hcors, hne_json]
      · by_cases hdash : req.path = "/" ∨ req.path = "/dashboard"
        · rcases hfile : env.dashboardFile with _ | c <;>
            rcases hdash with h1 | h1 <;>
            simp [handle, hopt, hget, do_GET, h1, hapi, hsw1, hsw2,
                  serve_dashboard, hfile, end_headers, List.count_append,
                  List.count_cons, hcors, hne_html]
        · have hb := hbase { method := "GET", path := req.path } h hm
          simp [handle, hopt, hget, do_GET, hapi, hdash, baseResponse,
                end_headers, List.count_append, hcors, hb]
    · have hb := hbase req h hm
      simp [handle, hopt, hget, baseResponse, end_headers,
            List.count_append, hcors, hb]

/-- Witness for the amended C7: in the sample environment (whose static
fallback sends no CORS header of its own), the first CORS header appears
twice in an OPTIONS response and once in a GET response to an unmatched
path. -/
theorem cors_injection_counts_instance :
    end_headers [] = corsHeaders ∧
    (handle sampleEnv { method := "OPTIONS", path := "/x" }).headers.count
        ("Access-Control-Allow-Origin", "*") = 2 ∧
    (handle sampleEnv { method := "GET", path := "/x" }).headers.count
        ("Access-Control-Allow-Origin", "*") = 1 := by
  have h1 := cors_injection_counts sampleEnv { method := "OPTIONS", path := "/x" }
    (fun _ _ _ => rfl)
  have h2 := cors_injection_counts sampleEnv { method := "GET", path := "/x" }
    (fun _ _ _ => rfl)
  refine ⟨h1.1 [], ?_, ?_⟩
  · have := h1.2 ("Access-Control-Allow-Origin", "*") (by decide)
    simpa using this
  · have := h2.2 ("Access-Control-Allow-Origin", "*") (by decide)
    simpa using this

/-- Counterexample to C8: with dashboard.html present and holding the raw
bytes "a\r\n", a GET to / answers 200 but with body "a\n" — the file is
read in text mode, so universal-newline translation rewrites CRLF to LF
and the body is not byte-for-byte identical to the file contents. -/
theorem dashboard_body_not_byte_identical :
    crlfEnv.dashboardFile = some "a\r\n" ∧
    (handle crlfEnv { method := "GET", path := "/" }).status = 200 ∧
    (handle crlfEnv { method := "GET", path := "/" }).body = "a\n" ∧
    ("a\n" : String) ≠ "a\r\n" := by decide

/-- C8 as amended: for every GET request to / or /dashboard when
dashboard.html is present, the response is status 200 with content-type
text/html and a body equal to the file contents after universal-newline
translation (each CRLF pair and each lone CR becomes LF, because the file
is opened in text mode); the body is byte-for-byte identical to the file
whenever the file contains no carriage-return byte. -/
theorem dashboard_served_with_newline_translation
    (u : String → UpstreamOutcome)
    (b : Request → Nat × List (String × String) × String)
    (contents : String) :
    handle { upstream := u, dashboardFile := some contents, base := b }
        { method := "GET", path := "/" } =
      { status := 200,
        headers := end_headers [("Content-Type", "text/html")],
        body := pythonTextRead contents } ∧
    handle { upstream := u, dashboardFile := some contents, base := b }
        { method := "GET", path := "/dashboard" } =
      { status := 200,
        headers := end_headers [("Content-Type", "text/html")],
        body := pythonTextRead contents } ∧
    ('\r' ∉ contents.data → pythonTextRead contents = contents) := by
  have hsw1 : startswith "/" "/api/" = false := by decide
  have hsw2 : startswith "/dashboard" "/api/" = false := by decide
  refine ⟨?_, ?_, ?_⟩
  · simp [handle, do_GET, hsw1, serve_dashboard]
  · simp [handle, do_GET, hsw2, serve_dashboard]
  · intro hcr
    unfold pythonTextRead
    rw [translateNewlines_of_no_cr contents.data hcr]

/-- Witness for the amended C8: an LF-only dashboard file is served back
byte-for-byte as the body of a GET to /. -/
theorem dashboard_served_with_newline_translation_instance :
    (handle { upstream := fun _ => UpstreamOutcome.urlError "refused",
              dashboardFile := some "<h1>hi</h1>\n",
              base := fun _ => (404, [], "") }
        { method := "GET", path := "/" }).body = "<h1>hi</h1>\n" := by
  have h := dashboard_served_with_newline_translation
    (fun _ => UpstreamOutcome.urlError "refused")
    (fun _ => (404, [], "")) "<h1>hi</h1>\n"
  exact (congrArg Response.body h.1).trans (h.2.2 (by decide))

/-- C9: for every GET request to / or /dashboard when dashboard.html is
absent from the working directory, the response is status 404 with
content-type text/html and body exactly the fixed not-found fragment. -/
theorem dashboard_missing_404 (u : String → UpstreamOutcome)
    (b : Request → Nat × List (String × String) × String) :
    handle { upstream := u, dashboardFile := none, base := b }
        { method := "GET", path := "/" } =
      { status := 404,
        headers := end_headers [("Content-Type", "text/html")],
        body := "<h1>Dashboard not found</h1>" } ∧
    handle { upstream := u, dashboardFile := none, base := b }
        { method := "GET", path := "/dashboard" } =
      { status := 404,
        headers := end_headers [("Content-Type", "text/html")],
        body := "<h1>Dashboard not found</h1>" } := by
  have hsw1 : startswith "/" "/api/" = false := by decide
  have hsw2 : startswith "/dashboard" "/api/" = false := by decide
  constructor
  · simp [handle, do_GET, hsw1, serve_dashboard]
  · simp [handle, do_GET, hsw2, serve_dashboard]

/-- C10: a GET request whose path begins with /api but not with /api/
(for example /api itself, or /apix) is not forwarded to the backend: the
dispatcher requires the 5-character prefix /api/, so the request falls
through to the generic static-file fallback, and the response does not
depend on the upstream at all. -/
theorem api_without_slash_falls_through (env : Env) (path : String)
    (h4 : startswith path "/api" = true)
    (h5 : startswith path "/api/" = false) :
    handle env { method := "GET", path := path } =
      baseResponse env { method := "GET", path := path } ∧
    ∀ u2 : String → UpstreamOutcome,
      handle { env with upstream := u2 } { method := "GET", path := path } =
        handle env { method := "GET", path := path } := by
  have hroot : path ≠ "/" := by
    intro e
    rw [e] at h4
    exact absurd h4 (by decide)
  have hdash : path ≠ "/dashboard" := by
    intro e
    rw [e] at h4
    exact absurd h4 (by decide)
  have hnor : ¬(path = "/" ∨ path = "/dashboard") := not_or.mpr ⟨hroot, hdash⟩
  constructor
  · simp [handle, do_GET, h5, hnor]
  · intro u2
    simp [handle, do_GET, h5, hnor, baseResponse]

/-- Witness for C10: in the sample environment, GET /api and GET /apix are
answered by the static-file fallback. -/
theorem api_without_slash_falls_through_instance :
    handle sampleEnv { method := "GET", path := "/api" } =
      baseResponse sampleEnv { method := "GET", path := "/api" } ∧
    handle sampleEnv { method := "GET", path := "/apix" } =
      baseResponse sampleEnv { method := "GET", path := "/apix" } :=
  ⟨(api_without_slash_falls_through sampleEnv "/api" (by decide) (by decide)).1,
   (api_without_slash_falls_through sampleEnv "/apix" (by decide) (by decide)).1⟩

end CorsServer
